import Mathlib

/-!
Verification of the vehicle-follow controller
(src/catkin_ws/src/vehicle_follow/scripts/vehicle_follow_node.py).

The numeric core is embedded shallowly over the real numbers: the kinematic
predictor (integrate, propagate), the two control-law channels (speed_cmd,
heading_cmd) and the pose-observation handler (cb_pose), together with the
node state retained between observation callbacks.
-/

namespace VehicleFollow

/-- Configuration parameters of the node, as set up in VehicleFollow.__init__. -/
structure Config where
  dist_ref : ℝ
  head_ref : ℝ
  k_follow : ℝ
  k_heading : ℝ
  head_thres : ℝ
  max_speed : ℝ
  max_heading : ℝ
  deadspace_speed : ℝ
  deadspace_heading : ℝ

/-- Default parameter values from setup_parameter calls in __init__. -/
noncomputable def defaultConfig : Config :=
  { dist_ref := 0.15
    head_ref := 0.0
    k_follow := 1.0
    k_heading := 1.0
    head_thres := Real.pi / 4
    max_speed := 0.4
    max_heading := 0.2
    deadspace_speed := 0.05
    deadspace_heading := 0.2 }

/-- A VehiclePose message: detection flag, header timestamp, and pose fields. -/
structure VehiclePose where
  detection : Bool
  stamp : ℝ
  theta : ℝ
  x : ℝ
  y : ℝ

/-- A Twist2DStamped command message: header timestamp, linear speed v and
angular rate omega. -/
structure Twist2DStamped where
  stamp : ℝ
  v : ℝ
  omega : ℝ

/-- The mutable state the node retains across observation callbacks:
car_cmd_msg (the last published command message, read by the predictor on the
next cycle), last_omega, last_v, and last_vehicle_pose. -/
structure NodeState where
  car_cmd : Twist2DStamped
  last_omega : ℝ
  last_v : ℝ
  last_vehicle_pose : VehiclePose

/-- VehicleFollow.integrate: theta_delta = theta_dot * dt; if
abs theta_dot < 0.000001 the straight-line branch gives x_delta = v * dt and
y_delta = 0, otherwise the arc branch uses radius = v / theta_dot with
x_delta = radius * sin theta_delta, y_delta = radius * (1 - cos theta_delta). -/
noncomputable def integrate (theta_dot v dt : ℝ) : ℝ × ℝ × ℝ :=
  if |theta_dot| < 0.000001 then
    (theta_dot * dt, v * dt, 0)
  else
    (theta_dot * dt, v / theta_dot * Real.sin (theta_dot * dt),
      v / theta_dot * (1 - Real.cos (theta_dot * dt)))

/-- VehicleFollow.propagate: compose a local-frame increment onto a pose by
the planar rotation of angle theta. -/
noncomputable def propagate (theta x y theta_delta x_delta y_delta : ℝ) : ℝ × ℝ × ℝ :=
  (theta + theta_delta,
    x + x_delta * Real.cos theta - y_delta * Real.sin theta,
    y + y_delta * Real.cos theta + x_delta * Real.sin theta)

/-- propagate, uncurried over pose and increment triples. -/
noncomputable def propagateT (p d : ℝ × ℝ × ℝ) : ℝ × ℝ × ℝ :=
  propagate p.1 p.2.1 p.2.2 d.1 d.2.1 d.2.2

/-- The distance channel of cb_pose: v = k_follow * following_error, then the
positive-saturation check whose body reassigns the value to itself (a no-op,
kept as in the source), then the if - elif chain over negative saturation and
the speed dead-band. -/
noncomputable def speed_cmd (cfg : Config) (err : ℝ) : ℝ :=
  let v0 := cfg.k_follow * err
  let v1 := if v0 > cfg.max_speed then v0 else v0
  if v1 < -cfg.max_speed then -cfg.max_speed
  else if |v1| < cfg.deadspace_speed then 0
  else v1

/-- The heading channel of cb_pose: omega = k_heading * heading_error, then
the if - elif - elif chain: clamp above, clamp below, dead-band. -/
noncomputable def heading_cmd (cfg : Config) (err : ℝ) : ℝ :=
  if cfg.k_heading * err > cfg.max_heading then cfg.max_heading
  else if cfg.k_heading * err < -cfg.max_heading then -cfg.max_heading
  else if |cfg.k_heading * err| < cfg.deadspace_heading then 0
  else cfg.k_heading * err

/-- VehicleFollow.cb_pose: on detection = false publish a zero command (the
stored car_cmd_msg is overwritten with v = 0, omega = 0); otherwise correct
the observed pose by integrate over the latency now - stamp using the
retained car_cmd_msg, compute actual_rho as the Euclidean norm of the
corrected position, run both control channels, store and publish the
resulting command. In both branches last_vehicle_pose is overwritten with
the incoming message. Returns the new state and the published command. -/
noncomputable def cb_pose (cfg : Config) (st : NodeState) (msg : VehiclePose)
    (now : ℝ) : NodeState × Twist2DStamped :=
  if !msg.detection then
    let cmd : Twist2DStamped := { stamp := msg.stamp, v := 0, omega := 0 }
    ({ st with car_cmd := cmd, last_vehicle_pose := msg }, cmd)
  else
    let delta_t := now - msg.stamp
    let d := integrate st.car_cmd.omega st.car_cmd.v delta_t
    let actual_x := msg.x - d.2.1
    let actual_y := msg.y - d.2.2
    let actual_rho := Real.sqrt (actual_x ^ 2 + actual_y ^ 2)
    let actual_theta := msg.theta - d.1
    let following_error := actual_rho - cfg.dist_ref
    let heading_error := actual_theta - cfg.head_ref
    let cmd : Twist2DStamped :=
      { stamp := msg.stamp
        v := speed_cmd cfg following_error
        omega := heading_cmd cfg heading_error }
    ({ st with
        car_cmd := cmd
        last_omega := cmd.omega
        last_v := cmd.v
        last_vehicle_pose := msg }, cmd)

/-- Claim C4: integrate returns theta_delta = theta_dot * dt; below the
epsilon threshold it returns (theta_dot * dt, v * dt, 0), otherwise the
circular-arc increments with radius v / theta_dot; in particular integrate
with theta_dot = 0 gives (0, v * dt, 0), and the function is total. -/
theorem integrate_spec (w v dt : ℝ) :
    (integrate w v dt).1 = w * dt ∧
    (|w| < 0.000001 → integrate w v dt = (w * dt, v * dt, 0)) ∧
    (¬ |w| < 0.000001 →
      integrate w v dt =
        (w * dt, v / w * Real.sin (w * dt), v / w * (1 - Real.cos (w * dt)))) ∧
    integrate 0 v dt = (0, v * dt, 0) := by
  refine ⟨?_, ?_, ?_, ?_⟩
  · unfold integrate
    split_ifs <;> rfl
  · intro h
    unfold integrate
    rw [if_pos h]
  · intro h
    unfold integrate
    rw [if_neg h]
  · unfold integrate
    rw [if_pos (by norm_num : |(0 : ℝ)| < 0.000001)]
    norm_num

/-- Witness for C4: both branch implications discharged at concrete inputs. -/
theorem integrate_spec_witness :
    integrate 0 1 2 = (0 * 2, 1 * 2, 0) ∧
    integrate 1 2 3 = (1 * 3, 2 / 1 * Real.sin (1 * 3), 2 / 1 * (1 - Real.cos (1 * 3))) :=
  ⟨(integrate_spec 0 1 2).2.1 (by norm_num),
   (integrate_spec 1 2 3).2.2.1 (by norm_num)⟩

/-- The no-op positive-saturation check drops out: speed_cmd is the if - elif
chain on k_follow * err. -/
lemma speed_cmd_eq (cfg : Config) (err : ℝ) :
    speed_cmd cfg err =
      if cfg.k_follow * err < -cfg.max_speed then -cfg.max_speed
      else if |cfg.k_follow * err| < cfg.deadspace_speed then 0
      else cfg.k_follow * err := by
  unfold speed_cmd
  simp only [ite_self]

lemma heading_cmd_clamp_pos (cfg : Config) (err : ℝ)
    (h : cfg.k_heading * err > cfg.max_heading) :
    heading_cmd cfg err = cfg.max_heading := by
  unfold heading_cmd
  rw [if_pos h]

lemma heading_cmd_clamp_neg (cfg : Config) (err : ℝ)
    (h1 : ¬ cfg.k_heading * err > cfg.max_heading)
    (h2 : cfg.k_heading * err < -cfg.max_heading) :
    heading_cmd cfg err = -cfg.max_heading := by
  unfold heading_cmd
  rw [if_neg h1, if_pos h2]

lemma heading_cmd_dead (cfg : Config) (err : ℝ)
    (h1 : ¬ cfg.k_heading * err > cfg.max_heading)
    (h2 : ¬ cfg.k_heading * err < -cfg.max_heading)
    (h3 : |cfg.k_heading * err| < cfg.deadspace_heading) :
    heading_cmd cfg err = 0 := by
  unfold heading_cmd
  rw [if_neg h1, if_neg h2, if_pos h3]

lemma heading_cmd_id (cfg : Config) (err : ℝ)
    (h1 : ¬ cfg.k_heading * err > cfg.max_heading)
    (h2 : ¬ cfg.k_heading * err < -cfg.max_heading)
    (h3 : ¬ |cfg.k_heading * err| < cfg.deadspace_heading) :
    heading_cmd cfg err = cfg.k_heading * err := by
  unfold heading_cmd
  rw [if_neg h1, if_neg h2, if_neg h3]

/-- Claim C5: the heading channel clamps k_heading * error_h to max_heading
above and to -max_heading below; otherwise it dead-bands to 0 when the
magnitude is below deadspace_heading, and else passes k_heading * error_h
through, the branches being mutually exclusive through the else-if chain.
Stated for any configuration whose max_heading is nonnegative (all heading
limits in the parameter space, the default 0.2 included). -/
theorem heading_channel_spec (cfg : Config) (err : ℝ)
    (hmax : 0 ≤ cfg.max_heading) :
    (cfg.k_heading * err > cfg.max_heading →
      heading_cmd cfg err = cfg.max_heading) ∧
    (cfg.k_heading * err < -cfg.max_heading →
      heading_cmd cfg err = -cfg.max_heading) ∧
    (¬ cfg.k_heading * err > cfg.max_heading →
      ¬ cfg.k_heading * err < -cfg.max_heading →
      |cfg.k_heading * err| < cfg.deadspace_heading →
      heading_cmd cfg err = 0) ∧
    (¬ cfg.k_heading * err > cfg.max_heading →
      ¬ cfg.k_heading * err < -cfg.max_heading →
      ¬ |cfg.k_heading * err| < cfg.deadspace_heading →
      heading_cmd cfg err = cfg.k_heading * err) := by
  refine ⟨fun h => heading_cmd_clamp_pos cfg err h, fun h => ?_,
    fun h1 h2 h3 => heading_cmd_dead cfg err h1 h2 h3,
    fun h1 h2 h3 => heading_cmd_id cfg err h1 h2 h3⟩
  have h1 : ¬ cfg.k_heading * err > cfg.max_heading := by
    intro hgt
    have : cfg.max_heading < -cfg.max_heading := lt_trans hgt h
    linarith
  exact heading_cmd_clamp_neg cfg err h1 h

/-- Witness for C5: positive clamp and dead-band branches at the default
configuration. -/
theorem heading_channel_spec_witness :
    (heading_cmd defaultConfig 1 = defaultConfig.max_heading) ∧
    (heading_cmd defaultConfig 0.1 = 0) :=
  ⟨(heading_channel_spec defaultConfig 1
      (by norm_num [defaultConfig])).1 (by norm_num [defaultConfig]),
   (heading_channel_spec defaultConfig 0.1
      (by norm_num [defaultConfig])).2.2.1 (by norm_num [defaultConfig])
      (by norm_num [defaultConfig]) (by norm_num [defaultConfig, abs_lt])⟩

/-- Claim C6: whenever k_follow * error_d is below -max_speed, the published
linear speed is exactly -max_speed. -/
theorem speed_saturation_floor (cfg : Config) (err : ℝ)
    (h : cfg.k_follow * err < -cfg.max_speed) :
    speed_cmd cfg err = -cfg.max_speed := by
  rw [speed_cmd_eq, if_pos h]

/-- Witness for C6 at the default configuration. -/
theorem speed_saturation_floor_witness :
    speed_cmd defaultConfig (-1) = -defaultConfig.max_speed :=
  speed_saturation_floor defaultConfig (-1) (by norm_num [defaultConfig])

/-- Claim C7: when the magnitude of k_follow * error_d is below
deadspace_speed and k_follow * error_d is at least -max_speed (so the
negative-saturation branch did not fire), the published linear speed is
exactly 0; note the statement does not exclude k_follow * error_d from
exceeding max_speed, since the positive-saturation check is a no-op and not
mutually exclusive with the dead-band. -/
theorem speed_deadband (cfg : Config) (err : ℝ)
    (hdead : |cfg.k_follow * err| < cfg.deadspace_speed)
    (hfloor : -cfg.max_speed ≤ cfg.k_follow * err) :
    speed_cmd cfg err = 0 := by
  rw [speed_cmd_eq, if_neg (not_lt.mpr hfloor), if_pos hdead]

/-- Witness for C7 at the default configuration. -/
theorem speed_deadband_witness : speed_cmd defaultConfig 0.03 = 0 :=
  speed_deadband defaultConfig 0.03 (by norm_num [defaultConfig, abs_lt])
    (by norm_num [defaultConfig])

/-- An observation with the detection flag cleared. -/
def obs_lost : VehiclePose :=
  { detection := false, stamp := 0, theta := 0, x := 0, y := 0 }

/-- An observation of the leader straight ahead at x = 0.6, timestamped 0. -/
noncomputable def obs_far : VehiclePose :=
  { detection := true, stamp := 0, theta := 0, x := 0.6, y := 0 }

/-- Node state whose retained command message is zero. -/
def st_init : NodeState :=
  { car_cmd := { stamp := 0, v := 0, omega := 0 }
    last_omega := 0
    last_v := 0
    last_vehicle_pose := obs_lost }

/-- Node state whose retained command message is v = 0.4, omega = 0.2. -/
noncomputable def st_moving : NodeState :=
  { car_cmd := { stamp := 0, v := 0.4, omega := 0.2 }
    last_omega := 0.2
    last_v := 0.4
    last_vehicle_pose := obs_lost }

/-- Claim C3: an observation with detection = false makes the handler publish
the command v = 0, omega = 0, whatever the stored state, the configuration
and the current time. -/
theorem detection_false_zero_cmd (cfg : Config) (st : NodeState)
    (msg : VehiclePose) (now : ℝ) (h : msg.detection = false) :
    (cb_pose cfg st msg now).2.v = 0 ∧ (cb_pose cfg st msg now).2.omega = 0 := by
  unfold cb_pose
  rw [h]
  exact ⟨rfl, rfl⟩

/-- Witness for C3: a lost observation against a moving retained command. -/
theorem detection_false_zero_cmd_witness :
    (cb_pose defaultConfig st_moving obs_lost 2).2.v = 0 ∧
    (cb_pose defaultConfig st_moving obs_lost 2).2.omega = 0 :=
  detection_false_zero_cmd defaultConfig st_moving obs_lost 2 rfl

/-- Counterexample to Claim C2: processing a detection = false observation
does change the (omega, v) pair that the next integrate call reads, because
the handler overwrites the retained car_cmd_msg with zeros; starting from the
retained command v = 0.4, the v field read by the next predictor invocation
becomes 0. -/
theorem detection_false_state_changed :
    (cb_pose defaultConfig st_moving obs_lost 1).1.car_cmd.v ≠
      st_moving.car_cmd.v := by
  unfold cb_pose st_moving obs_lost
  norm_num

/-- Claim C2 amended: processing a detection = false observation sets the
retained command message that the next predictor invocation reads to
v = 0, omega = 0 (rather than leaving it unchanged); the last_omega and
last_v scalars are left untouched, but integrate reads car_cmd_msg. -/
theorem detection_false_state_zeroed (cfg : Config) (st : NodeState)
    (msg : VehiclePose) (now : ℝ) (h : msg.detection = false) :
    (cb_pose cfg st msg now).1.car_cmd.v = 0 ∧
    (cb_pose cfg st msg now).1.car_cmd.omega = 0 ∧
    (cb_pose cfg st msg now).1.last_omega = st.last_omega ∧
    (cb_pose cfg st msg now).1.last_v = st.last_v := by
  unfold cb_pose
  rw [h]
  exact ⟨rfl, rfl, rfl, rfl⟩

/-- Witness for the amended C2 at a concrete lost observation. -/
theorem detection_false_state_zeroed_witness :
    (cb_pose defaultConfig st_moving obs_lost 1).1.car_cmd.v = 0 ∧
    (cb_pose defaultConfig st_moving obs_lost 1).1.car_cmd.omega = 0 ∧
    (cb_pose defaultConfig st_moving obs_lost 1).1.last_omega = st_moving.last_omega ∧
    (cb_pose defaultConfig st_moving obs_lost 1).1.last_v = st_moving.last_v :=
  detection_false_state_zeroed defaultConfig st_moving obs_lost 1 rfl

/-- Claim C10: the published command does not depend on the stored previous
observation: replacing last_vehicle_pose by any other observation, with the
same configuration, retained command and incoming message, publishes the
identical command. -/
theorem published_cmd_ignores_last_pose (cfg : Config) (st : NodeState)
    (p : VehiclePose) (msg : VehiclePose) (now : ℝ) :
    (cb_pose cfg { st with last_vehicle_pose := p } msg now).2 =
      (cb_pose cfg st msg now).2 := by
  unfold cb_pose
  cases msg.detection <;> rfl

/-- Over a zero elapsed interval the predictor returns a zero increment, in
both branches. -/
lemma integrate_dt_zero (w v : ℝ) : integrate w v 0 = (0, 0, 0) := by
  unfold integrate
  split_ifs <;> simp

/-- On a detection = true observation, the published linear speed is the
distance channel applied to the latency-corrected radial distance minus
dist_ref, with the correction produced by integrate on the retained command
over now - stamp. -/
lemma cb_pose_v_true (cfg : Config) (st : NodeState) (msg : VehiclePose)
    (now : ℝ) (h : msg.detection = true) :
    (cb_pose cfg st msg now).2.v =
      speed_cmd cfg
        (Real.sqrt
          ((msg.x - (integrate st.car_cmd.omega st.car_cmd.v (now - msg.stamp)).2.1) ^ 2 +
            (msg.y - (integrate st.car_cmd.omega st.car_cmd.v (now - msg.stamp)).2.2) ^ 2) -
          cfg.dist_ref) := by
  unfold cb_pose
  rw [h]
  exact rfl

/-- On a detection = true observation, the published angular rate is the
heading channel applied to the latency-corrected heading minus head_ref. -/
lemma cb_pose_omega_true (cfg : Config) (st : NodeState) (msg : VehiclePose)
    (now : ℝ) (h : msg.detection = true) :
    (cb_pose cfg st msg now).2.omega =
      heading_cmd cfg
        (msg.theta - (integrate st.car_cmd.omega st.car_cmd.v (now - msg.stamp)).1 -
          cfg.head_ref) := by
  unfold cb_pose
  rw [h]
  exact rfl

/-- Evaluation of the x = 0.6 zero-latency scenario: the published linear
speed is 0.45, for any retained state. -/
lemma far_v_eval (st : NodeState) :
    (cb_pose defaultConfig st obs_far 0).2.v = 0.45 := by
  rw [cb_pose_v_true defaultConfig st obs_far 0 rfl]
  have h0 : (0 : ℝ) - obs_far.stamp = 0 := by norm_num [obs_far]
  rw [h0, integrate_dt_zero]
  have hsq : (obs_far.x - ((0 : ℝ), (0 : ℝ), (0 : ℝ)).2.1) ^ 2 +
      (obs_far.y - ((0 : ℝ), (0 : ℝ), (0 : ℝ)).2.2) ^ 2 = (0.6 : ℝ) ^ 2 := by
    norm_num [obs_far]
  rw [hsq, Real.sqrt_sq (by norm_num : (0 : ℝ) ≤ 0.6)]
  rw [speed_cmd_eq]
  split_ifs with h1 h2
  · exfalso
    norm_num [defaultConfig] at h1
  · exfalso
    rw [abs_lt] at h2
    norm_num [defaultConfig] at h2
  · norm_num [defaultConfig]

/-- Counterexample to Claim C1: in the x = 0.6 zero-latency scenario under
the default configuration the published linear speed is not 0.4: the
positive-saturation branch of the source reassigns the value to itself, so
no clamping to max_speed happens. -/
theorem far_scenario_v_not_clamped :
    (cb_pose defaultConfig st_init obs_far 0).2.v ≠ 0.4 := by
  rw [far_v_eval st_init]
  norm_num

/-- Claim C1 amended: in the x = 0.6 zero-latency scenario under the default
configuration the distance channel sees rho = 0.6 and error_d = 0.45, and the
published linear speed is 0.45, unclamped, since the positive-saturation
check in the source is a no-op. Holds for every retained state because the
zero latency makes the predictor correction vanish. -/
theorem far_scenario_amended (st : NodeState) :
    Real.sqrt
      ((obs_far.x - (integrate st.car_cmd.omega st.car_cmd.v (0 - obs_far.stamp)).2.1) ^ 2 +
        (obs_far.y - (integrate st.car_cmd.omega st.car_cmd.v (0 - obs_far.stamp)).2.2) ^ 2) = 0.6 ∧
    (0.6 : ℝ) - defaultConfig.dist_ref = 0.45 ∧
    (cb_pose defaultConfig st obs_far 0).2.v = 0.45 := by
  refine ⟨?_, by norm_num [defaultConfig], far_v_eval st⟩
  have h0 : (0 : ℝ) - obs_far.stamp = 0 := by norm_num [obs_far]
  rw [h0, integrate_dt_zero]
  have hsq : (obs_far.x - ((0 : ℝ), (0 : ℝ), (0 : ℝ)).2.1) ^ 2 +
      (obs_far.y - ((0 : ℝ), (0 : ℝ), (0 : ℝ)).2.2) ^ 2 = (0.6 : ℝ) ^ 2 := by
    norm_num [obs_far]
  rw [hsq, Real.sqrt_sq (by norm_num : (0 : ℝ) ≤ 0.6)]

/-- Claim C8: on a detection = true observation the handler publishes the
control channels applied to the errors of the latency-compensated pose: the
correction is integrate of the retained command over now - stamp, rho is the
Euclidean norm of the compensated position, and the errors are
rho - dist_ref and compensated theta - head_ref. -/
theorem corrected_pose_control_law (cfg : Config) (st : NodeState)
    (msg : VehiclePose) (now : ℝ) (h : msg.detection = true) :
    (cb_pose cfg st msg now).2.v =
      speed_cmd cfg
        (Real.sqrt
          ((msg.x - (integrate st.car_cmd.omega st.car_cmd.v (now - msg.stamp)).2.1) ^ 2 +
            (msg.y - (integrate st.car_cmd.omega st.car_cmd.v (now - msg.stamp)).2.2) ^ 2) -
          cfg.dist_ref) ∧
    (cb_pose cfg st msg now).2.omega =
      heading_cmd cfg
        (msg.theta - (integrate st.car_cmd.omega st.car_cmd.v (now - msg.stamp)).1 -
          cfg.head_ref) := by
  unfold cb_pose
  rw [h]
  exact ⟨rfl, rfl⟩

/-- Witness for C8 at a concrete moving state and observation. -/
theorem corrected_pose_control_law_witness :
    (cb_pose defaultConfig st_moving obs_far 1).2.v =
      speed_cmd defaultConfig
        (Real.sqrt
          ((obs_far.x -
              (integrate st_moving.car_cmd.omega st_moving.car_cmd.v (1 - obs_far.stamp)).2.1) ^ 2 +
            (obs_far.y -
              (integrate st_moving.car_cmd.omega st_moving.car_cmd.v (1 - obs_far.stamp)).2.2) ^ 2) -
          defaultConfig.dist_ref) ∧
    (cb_pose defaultConfig st_moving obs_far 1).2.omega =
      heading_cmd defaultConfig
        (obs_far.theta -
          (integrate st_moving.car_cmd.omega st_moving.car_cmd.v (1 - obs_far.stamp)).1 -
          defaultConfig.head_ref) :=
  corrected_pose_control_law defaultConfig st_moving obs_far 1 rfl

/-- Claim C9: for turn rates at or above the epsilon threshold, propagating
twice with the increment of integrate over dt / 2 reaches exactly the pose
of propagating once with the increment of integrate over dt: the arc model
is consistent under subdivision. -/
theorem arc_subdivision_consistent (w v dt theta x y : ℝ)
    (h : 0.000001 ≤ |w|) :
    propagateT (propagateT (theta, x, y) (integrate w v (dt / 2)))
        (integrate w v (dt / 2)) =
      propagateT (theta, x, y) (integrate w v dt) := by
  have hn : ¬ |w| < 0.000001 := not_lt.mpr h
  unfold integrate propagateT propagate
  simp only [if_neg hn]
  have h2 : w * dt = 2 * (w * (dt / 2)) := by ring
  rw [h2, Real.sin_two_mul, Real.cos_two_mul]
  have hsc : Real.sin (w * (dt / 2)) ^ 2 + Real.cos (w * (dt / 2)) ^ 2 = 1 :=
    Real.sin_sq_add_cos_sq (w * (dt / 2))
  simp only [Prod.mk.injEq]
  refine ⟨by ring, ?_, ?_⟩
  · rw [Real.cos_add, Real.sin_add]
    linear_combination (-(v / w * Real.sin theta)) * hsc
  · rw [Real.cos_add, Real.sin_add]
    linear_combination (v / w * Real.cos theta) * hsc

/-- Witness for C9 at a concrete turn rate above the threshold. -/
theorem arc_subdivision_consistent_witness :
    propagateT (propagateT (0, 0, 0) (integrate 1 1 (1 / 2)))
        (integrate 1 1 (1 / 2)) =
      propagateT (0, 0, 0) (integrate 1 1 1) :=
  arc_subdivision_consistent 1 1 1 0 0 0 (by norm_num)

end VehicleFollow
